import Mathlib

/- Shallow embedding of the data-access and resilience layer of the
shopper-behavior-analytics dashboard client: the query hooks in
`src/frontend/src/hooks/useApi.js`, the two axios clients
(`src/frontend/src/api/userApi.js` and the analytics client in
`src/unnamed/part_006`), and the segment-insights fan-out in
`src/frontend/src/pages/Dashboard.js`. -/

/-- Error classification of a failed request: an axios error carries either
no response (network failure), a timeout, or a response status in the 4xx
or 5xx range. -/
inductive ErrorClass where
  | network
  | timeout
  | http4xx
  | http5xx
deriving DecidableEq, Repr

/-- Retry predicate induced by `useApi.js` line 19: the hook passes the plain
number `retry: 3` to `useQuery`, and react-query's numeric `retry` option
retries a failed attempt exactly when the number of failures so far is below
that number; no predicate on the error is configured, so the error
classification is ignored. -/
def shouldRetry (failureCount : Nat) (_e : ErrorClass) : Bool :=
  failureCount < 3

/-- Retry delay from `useApi.js` line 20:
`retryDelay: (attemptIndex) => Math.min(1000 * 2 ** attemptIndex, 30000)`. -/
def retryDelay (attemptIndex : Nat) : Nat :=
  min (1000 * 2 ^ attemptIndex) 30000

/-- Attempt loop of a single logical fetch under the configuration of
`useApi.js`: `outcomes i` is the result of the i-th network call; after a
failed call the loop continues exactly when `shouldRetry` allows it.
Returns (total number of network calls, final outcome). -/
def runAttempts (outcomes : Nat → Except ErrorClass Nat) (i : Nat) :
    Nat × Except ErrorClass Nat :=
  match outcomes i with
  | .ok d => (i + 1, .ok d)
  | .error e =>
    if h : shouldRetry i e then runAttempts outcomes (i + 1)
    else (i + 1, .error e)
termination_by 3 - i
decreasing_by simp [shouldRetry] at h; omega

/-- A query run starts at attempt index 0. -/
def queryRun (outcomes : Nat → Except ErrorClass Nat) : Nat × Except ErrorClass Nat :=
  runAttempts outcomes 0

/-- Effect of a query onSuccess callback, modelled by what the only such
callback in the hooks file does: map the returned page length and the current
hasMore flag to the next hasMore flag. -/
abbrev SuccessHandler := Nat → Bool → Bool

/-- Caller-supplied options object: each recognized key is present or
absent, mirroring a JS object literal passed to the hooks. -/
structure OptionsIn where
  retry : Option Nat := none
  retryDelayFn : Option (Nat → Nat) := none
  staleTime : Option Nat := none
  cacheTime : Option Nat := none
  refetchOnWindowFocus : Option Bool := none
  refetchInterval : Option Nat := none
  onSuccess : Option SuccessHandler := none
  pageSize : Option Nat := none

/-- Options actually handed to `useQuery` after the merge in `useApi.js`
lines 18-25. -/
structure EffectiveOptions where
  retry : Nat
  retryDelayFn : Nat → Nat
  staleTime : Nat
  cacheTime : Nat
  refetchOnWindowFocus : Bool
  refetchInterval : Option Nat
  onSuccess : Option SuccessHandler

/-- Options merge performed by `useApi` (lines 18-25): the defaults
`retry: 3`, `retryDelay`, `staleTime: 5 min`, `cacheTime: 10 min`,
`refetchOnWindowFocus: false` are spread first and `...options` last, so
every caller-supplied key overrides the corresponding default. -/
def useApiOptions (o : OptionsIn) : EffectiveOptions :=
  { retry := o.retry.getD 3
    retryDelayFn := o.retryDelayFn.getD retryDelay
    staleTime := o.staleTime.getD (5 * 60 * 1000)
    cacheTime := o.cacheTime.getD (10 * 60 * 1000)
    refetchOnWindowFocus := o.refetchOnWindowFocus.getD false
    refetchInterval := o.refetchInterval
    onSuccess := o.onSuccess }

/-- JS expression `options.pageSize || 20` from `useApi.js` line 76: any
falsy value (key absent, or 0) yields the guessed default 20. -/
def pageSizeOrDefault : Option Nat → Nat
  | none => 20
  | some p => if p = 0 then 20 else p

/-- The onSuccess handler `useInfiniteApi` installs (lines 75-79):
`if (data.length === 0 || data.length < (options.pageSize || 20))
setHasMore(false)`. -/
def infiniteOnSuccess (pageSize : Option Nat) : SuccessHandler :=
  fun len hasMore => if len = 0 || len < pageSizeOrDefault pageSize then false else hasMore

/-- Options object `useInfiniteApi` passes down to `useApi` (lines 71-80):
`{ ...options, onSuccess: (data) => { ... } }` — the caller's options are
spread first and the hook's own onSuccess is written after the spread. -/
def useInfiniteApiOptions (o : OptionsIn) : OptionsIn :=
  { o with onSuccess := some (infiniteOnSuccess o.pageSize) }

/-- State owned by `useInfiniteApi` (lines 59-60) together with the
query's loading flag it consults. -/
structure InfiniteState where
  page : Nat
  hasMore : Bool
  isLoading : Bool
deriving DecidableEq, Repr

/-- Initial pagination state: `useState(1)`, `useState(true)`. -/
def infiniteInit : InfiniteState :=
  { page := 1, hasMore := true, isLoading := false }

/-- Operations observable on the pagination controller: the two exported
functions plus the query lifecycle events that toggle the loading flag and
fire the hook's onSuccess. -/
inductive InfiniteEvent where
  | loadMore
  | reset
  | fetchStart
  | fetchSuccess (len : Nat)
deriving DecidableEq, Repr

/-- One step of the pagination controller: `loadMore` (lines 83-87) is
guarded by `!isLoading && hasMore`; `reset` (lines 89-92) restores
`page=1, hasMore=true`; a successful fetch of `len` items runs the hook's
onSuccess. -/
def infiniteStep (pageSize : Option Nat) (s : InfiniteState) :
    InfiniteEvent → InfiniteState
  | .loadMore => if !s.isLoading && s.hasMore then { s with page := s.page + 1 } else s
  | .reset => { s with page := 1, hasMore := true }
  | .fetchStart => { s with isLoading := true }
  | .fetchSuccess len =>
    { s with isLoading := false, hasMore := infiniteOnSuccess pageSize len s.hasMore }

/-- Run of the pagination controller over a sequence of events. -/
def infiniteRun (pageSize : Option Nat) (s : InfiniteState)
    (evs : List InfiniteEvent) : InfiniteState :=
  evs.foldl (infiniteStep pageSize) s

/-- Page length a paged backend with its own page size serves for a 1-based
page index: `min serverPageSize (total - (page-1)*serverPageSize)` (Nat
subtraction truncates at 0). The hook's fetch is `() => apiFunction(page)`
(line 73): no page size is passed, so the backend's page size is independent
of the `options.pageSize` default the hook compares against. -/
def pageLen (serverPageSize total page : Nat) : Nat :=
  min serverPageSize (total - (page - 1) * serverPageSize)

/-- Debounce model of `useDebouncedApi` (lines 104-117): the input is the
raw key changes as (time, key) pairs in arrival order; each change clears
the pending timer (the useEffect cleanup) and arms a new one for `delay`
milliseconds. A timer armed at `t` fires and commits its key at `t + delay`
unless the next change arrives strictly before that instant. The output is
the committed (time, key) changes. -/
def debounceCommits (delay : Nat) : List (Nat × Nat) → List (Nat × Nat)
  | [] => []
  | [(t, k)] => [(t + delay, k)]
  | (t, k) :: (t2, k2) :: rest =>
    if t2 < t + delay then debounceCommits delay ((t2, k2) :: rest)
    else (t + delay, k) :: debounceCommits delay ((t2, k2) :: rest)

/-- A customer segment as consumed by the fan-out: its id plus a further
field standing for the rest of the object that `...segment` spreads. -/
structure Segment where
  segment_id : Nat
  size : Nat
deriving DecidableEq, Repr

/-- Entry of the fan-out result: `{ ...segment, insights }` where insights
is the fetched data or null. -/
structure SegmentWithInsights where
  segment : Segment
  insights : Option Nat
deriving DecidableEq, Repr

/-- Per-entity fetch with the try/catch of `Dashboard.js` lines 517-525: on
success the insights are attached; on any error the entry is
`{ ...segment, insights: null }` — the caught error is only logged to the
console, not stored in the entry. -/
def fetchSegmentInsights (fetch : Nat → Except ErrorClass Nat) (seg : Segment) :
    SegmentWithInsights :=
  match fetch seg.segment_id with
  | .ok d => { segment := seg, insights := some d }
  | .error _ => { segment := seg, insights := none }

/-- The segmentInsights query function (`Dashboard.js` lines 512-528): an
empty-input guard, then `Promise.all(segments.map(...))`; since every
per-entity promise catches its own error, the aggregate never rejects and
settles with one entry per input segment in input order. -/
def segmentInsightsQuery (fetch : Nat → Except ErrorClass Nat)
    (segments : List Segment) : List SegmentWithInsights :=
  if segments.isEmpty then [] else segments.map (fetchSegmentInsights fetch)

/-- Settling time of the `Promise.all` aggregate: the maximum of the
per-entity settle times. It is a function of the settle times alone — an
entity's outcome (success or failure) does not enter, because a failed
entity settles its promise through the catch just like a successful one. -/
def segmentInsightsResolveTime (settleTime : Nat → Nat)
    (segments : List Segment) : Nat :=
  (segments.map (fun seg => settleTime seg.segment_id)).foldr max 0

/-- Browser-global state the clients touch: the two localStorage keys
(`authToken`, read by the analytics client; `token`, read by the user
client) and whether `window.location.href` was set to `/login`. -/
structure BrowserState where
  authToken : Option Nat
  userToken : Option Nat
  redirectedToLogin : Bool
deriving DecidableEq, Repr

/-- Response interceptor of the analytics client (`src/unnamed/part_006`
lines 96-107): on a 401 response it removes `authToken` from storage and
sets `window.location.href = '/login'`; in every case it returns
`Promise.reject(error)`, so the error still propagates to the caller
(the Bool component). -/
def analyticsResponseInterceptor (status : Nat) (st : BrowserState) :
    BrowserState × Bool :=
  if status = 401 then
    ({ st with authToken := none, redirectedToLogin := true }, true)
  else (st, true)

/-- The user client (`userApi.js`) installs a request interceptor only and
no response interceptor: an error response reaches the caller with no side
effect on storage or location. -/
def userResponseInterceptor (_status : Nat) (st : BrowserState) :
    BrowserState × Bool :=
  (st, true)

/-- Snapshot state behind `useApi`'s return value that `retry` touches: the
`retryCount` React state and a count of `refetch()` invocations. -/
structure ApiHandleState where
  retryCount : Nat
  refetchCount : Nat
deriving DecidableEq, Repr

/-- `handleRetry` (`useApi.js` lines 28-31):
`setRetryCount(prev => prev + 1); refetch();`. -/
def handleRetry (s : ApiHandleState) : ApiHandleState :=
  { retryCount := s.retryCount + 1, refetchCount := s.refetchCount + 1 }

/-- Modelled from the spec: the Query Cache entry for one key with the
last-trigger-wins rule of §5 — the cache records the id of the most
recently triggered fetch and applies a completion only when its fetch id
matches. The cache itself is react-query library code, not part of this
repository's sources; only its configuration appears in `useApi.js`. -/
structure CacheEntry where
  latestTriggerId : Nat
  data : Option Nat
deriving DecidableEq, Repr

/-- Modelled from the spec: triggering a fetch for the key stamps it with a
fresh id and records that id as the most recent trigger. Returns the new
entry and the fetch's id. -/
def triggerFetch (e : CacheEntry) : CacheEntry × Nat :=
  ({ e with latestTriggerId := e.latestTriggerId + 1 }, e.latestTriggerId + 1)

/-- Modelled from the spec: a completing fetch writes its result into the
entry only if it is still the most recently triggered fetch; otherwise the
completion is discarded as a no-op. -/
def applyCompletion (e : CacheEntry) (fetchId : Nat) (result : Nat) : CacheEntry :=
  if fetchId = e.latestTriggerId then { e with data := some result } else e

/-- The claim that http4xx is never retried is false on the code: the hook
configures `retry: 3` with no error-class predicate, so a client error is
retried like every other error, and a fetch failing with http4xx on every
attempt performs 4 network calls, not 1. -/
theorem http4xx_is_retried :
    shouldRetry 0 ErrorClass.http4xx = true ∧
    (queryRun (fun _ => Except.error ErrorClass.http4xx)).1 = 4 := by
  constructor
  · decide
  · simp [queryRun, runAttempts, shouldRetry]

/-- C1 (amended): every error class, http4xx included, is retried up to the
fixed maximum of 3 retries — a fetch that keeps failing performs 4 network
calls before reporting error status, and a fetch succeeding on attempt 0
performs exactly 1 call. -/
theorem c1_all_errors_retried_up_to_three :
    (∀ e : ErrorClass, queryRun (fun _ => Except.error e) = (4, Except.error e)) ∧
    (∀ (f : Nat → Except ErrorClass Nat) (d : Nat),
        f 0 = Except.ok d → queryRun f = (1, Except.ok d)) := by
  constructor
  · intro e
    simp [queryRun, runAttempts, shouldRetry]
  · intro f d h
    simp [queryRun, runAttempts, h]

/-- Witness for C1 at concrete inputs: four calls for a persistent http4xx
failure, one call for an immediate success. -/
theorem c1_all_errors_retried_up_to_three_witness :
    queryRun (fun _ => Except.error ErrorClass.http4xx)
        = (4, Except.error ErrorClass.http4xx) ∧
    queryRun (fun _ => Except.ok 7) = (1, Except.ok 7) :=
  ⟨c1_all_errors_retried_up_to_three.1 ErrorClass.http4xx,
   c1_all_errors_retried_up_to_three.2 (fun _ => Except.ok 7) 7 rfl⟩

/-- C4: the retry delay is `min(1000 * 2^attempt, 30000)`; the delays for
attempts 0, 1, 2 are 1000ms, 2000ms, 4000ms; the sequence is monotonically
non-decreasing and never exceeds 30000ms. -/
theorem c4_retry_delay_exponential_capped :
    (∀ n, retryDelay n = min (1000 * 2 ^ n) 30000) ∧
    (retryDelay 0 = 1000 ∧ retryDelay 1 = 2000 ∧ retryDelay 2 = 4000) ∧
    (∀ n, retryDelay n ≤ retryDelay (n + 1)) ∧
    (∀ n, retryDelay n ≤ 30000) := by
  refine ⟨fun n => rfl, by decide, fun n => ?_, fun n => min_le_right _ _⟩
  have h : 1000 * 2 ^ n ≤ 1000 * 2 ^ (n + 1) :=
    Nat.mul_le_mul_left 1000 (Nat.pow_le_pow_right (by norm_num) (Nat.le_succ n))
  exact min_le_min h le_rfl

/-- C8 counterexample: the retry affordance does not reset the retry count
to zero — starting from retryCount 0 one invocation yields retryCount 1. -/
theorem retry_does_not_reset_count :
    (handleRetry { retryCount := 0, refetchCount := 0 }).retryCount = 1 ∧
    (1 : Nat) ≠ 0 := by
  decide

/-- C8 (amended): invoking the retry affordance increments the snapshot's
retryCount by one and re-triggers the fetch. -/
theorem c8_retry_increments_and_refetches :
    ∀ s : ApiHandleState,
      (handleRetry s).retryCount = s.retryCount + 1 ∧
      (handleRetry s).refetchCount = s.refetchCount + 1 :=
  fun _ => ⟨rfl, rfl⟩

/-- C9: last-trigger-wins — after fetch #1 and then fetch #2 are triggered
for the same key, the entry ends with fetch #2's result whichever completion
order occurs, because a completion whose fetch id is no longer the most
recently triggered one is discarded. -/
theorem c9_last_trigger_wins (e0 : CacheEntry) (r1 r2 : Nat) :
    (applyCompletion
        (applyCompletion (triggerFetch (triggerFetch e0).1).1
          (triggerFetch (triggerFetch e0).1).2 r2)
        (triggerFetch e0).2 r1).data = some r2 ∧
    (applyCompletion
        (applyCompletion (triggerFetch (triggerFetch e0).1).1
          (triggerFetch e0).2 r1)
        (triggerFetch (triggerFetch e0).1).2 r2).data = some r2 := by
  simp [triggerFetch, applyCompletion]

/-- C10: the options object the infinite-scroll hook passes down always
carries the hook's own onSuccess handler — a caller-supplied onSuccess is
overwritten by the spread order — while every other caller-supplied option
survives to the effective options and overrides the base hook's defaults;
absent options fall back to the defaults of `useApi`. -/
theorem c10_infinite_onsuccess_replaced_other_options_override :
    (∀ (o : OptionsIn) (h : Option SuccessHandler),
        (useInfiniteApiOptions { o with onSuccess := h }).onSuccess
          = some (infiniteOnSuccess o.pageSize)) ∧
    (∀ o : OptionsIn,
        (useApiOptions (useInfiniteApiOptions o)).onSuccess
          = some (infiniteOnSuccess o.pageSize)) ∧
    (∀ (o : OptionsIn) (s c r : Nat) (w : Bool),
        (useApiOptions { o with
            staleTime := some s
            cacheTime := some c
            retry := some r
            refetchOnWindowFocus := some w }).staleTime = s ∧
        (useApiOptions { o with
            staleTime := some s
            cacheTime := some c
            retry := some r
            refetchOnWindowFocus := some w }).cacheTime = c ∧
        (useApiOptions { o with
            staleTime := some s
            cacheTime := some c
            retry := some r
            refetchOnWindowFocus := some w }).retry = r ∧
        (useApiOptions { o with
            staleTime := some s
            cacheTime := some c
            retry := some r
            refetchOnWindowFocus := some w }).refetchOnWindowFocus = w) ∧
    ((useApiOptions {}).retry = 3 ∧ (useApiOptions {}).staleTime = 300000 ∧
     (useApiOptions {}).cacheTime = 600000 ∧
     (useApiOptions {}).refetchOnWindowFocus = false) :=
  ⟨fun _ _ => rfl, fun _ => rfl,
   fun _ _ _ _ _ => ⟨rfl, rfl, rfl, rfl⟩, ⟨rfl, rfl, rfl, rfl⟩⟩

/-- C3 counterexample: a 401 received by the user client has no side effect
at all — its token stays in storage and no redirect fires — so the
session-expired handling does not hold regardless of which API client
issued the request; the analytics client, in contrast, does redirect. -/
theorem user_client_401_has_no_side_effect :
    userResponseInterceptor 401
        { authToken := some 7, userToken := some 7, redirectedToLogin := false }
      = ({ authToken := some 7, userToken := some 7, redirectedToLogin := false }, true) ∧
    (analyticsResponseInterceptor 401
        { authToken := some 7, userToken := some 7,
          redirectedToLogin := false }).1.redirectedToLogin = true := by
  decide

/-- C3 (amended): only the analytics client reacts to a 401 — it clears the
stored `authToken`, fires the global redirect to login, and still propagates
the error to the caller; on any other status it is a pass-through; the user
client installs no response interceptor, so every error response passes
through untouched; even the analytics client leaves the user client's
`token` key alone. -/
theorem c3_only_analytics_client_handles_401 :
    (∀ st : BrowserState, analyticsResponseInterceptor 401 st
        = ({ st with authToken := none, redirectedToLogin := true }, true)) ∧
    (∀ (status : Nat) (st : BrowserState), status ≠ 401 →
        analyticsResponseInterceptor status st = (st, true)) ∧
    (∀ (status : Nat) (st : BrowserState),
        userResponseInterceptor status st = (st, true)) ∧
    (∀ st : BrowserState,
        (analyticsResponseInterceptor 401 st).1.userToken = st.userToken) := by
  refine ⟨fun st => by simp [analyticsResponseInterceptor],
          fun status st h => by simp [analyticsResponseInterceptor, h],
          fun status st => rfl,
          fun st => by simp [analyticsResponseInterceptor]⟩

/-- Witness for C3 at concrete inputs: a 200 passes through the analytics
interceptor unchanged, and a 401 there clears the token while preserving
the user client's key. -/
theorem c3_only_analytics_client_handles_401_witness :
    analyticsResponseInterceptor 200
        { authToken := some 5, userToken := some 9, redirectedToLogin := false }
      = ({ authToken := some 5, userToken := some 9, redirectedToLogin := false }, true) ∧
    (analyticsResponseInterceptor 401
        { authToken := some 5, userToken := some 9,
          redirectedToLogin := false }).1.userToken = some 9 :=
  ⟨c3_only_analytics_client_handles_401.2.1 200 _ (by decide),
   c3_only_analytics_client_handles_401.2.2.2 _⟩

/-- C5 counterexample: with no pageSize option, a backend whose own page
size is 10 serves a full first page of 10 items out of 100 available, yet
the hook compares the count 10 against the guessed default 20 and sets
hasMore to false — the comparison is not against the page size the fetch
actually used. -/
theorem hasmore_uses_guessed_default :
    pageLen 10 100 1 = 10 ∧
    ¬(pageLen 10 100 1 < 10 ∨ pageLen 10 100 1 = 0) ∧
    (infiniteStep none infiniteInit
        (InfiniteEvent.fetchSuccess (pageLen 10 100 1))).hasMore = false := by
  decide

/-- C5 (amended): on a successful fetch, hasMore becomes false exactly when
the returned item count is zero or below `options.pageSize || 20` — a
separately configured default that need not match the page size the fetch
actually used — and once false it stays false until reset() is called. -/
theorem c5_hasmore_compares_configured_default (ps : Option Nat) :
    (∀ (s : InfiniteState) (len : Nat), s.hasMore = true →
        ((infiniteStep ps s (InfiniteEvent.fetchSuccess len)).hasMore = false ↔
          (len = 0 ∨ len < pageSizeOrDefault ps))) ∧
    (∀ (s : InfiniteState) (evs : List InfiniteEvent), s.hasMore = false →
        (∀ e ∈ evs, e ≠ InfiniteEvent.reset) →
        (infiniteRun ps s evs).hasMore = false) := by
  constructor
  · intro s len h
    by_cases hc : len = 0 ∨ len < pageSizeOrDefault ps
    · rcases hc with hc | hc <;> simp [infiniteStep, infiniteOnSuccess, h, hc]
    · push_neg at hc
      simp [infiniteStep, infiniteOnSuccess, h, hc.1, hc.2]
  · intro s evs
    induction evs generalizing s with
    | nil => intro h _; exact h
    | cons e tl ih =>
      intro h hne
      have hstep : (infiniteStep ps s e).hasMore = false := by
        cases e with
        | loadMore =>
          simp only [infiniteStep]
          split
          · exact h
          · exact h
        | reset =>
          exact absurd rfl (hne InfiniteEvent.reset (List.mem_cons_self _ _))
        | fetchStart => exact h
        | fetchSuccess len => simp [infiniteStep, infiniteOnSuccess, h]
      exact ih (infiniteStep ps s e) hstep
        (fun x hx => hne x (List.mem_cons_of_mem _ hx))

/-- Witness for C5 at concrete inputs: with pageSize 20 a short page of 7
items flips hasMore to false, and a later full page cannot flip it back. -/
theorem c5_hasmore_compares_configured_default_witness :
    ((infiniteStep (some 20) infiniteInit (InfiniteEvent.fetchSuccess 7)).hasMore = false ↔
      (7 = 0 ∨ 7 < pageSizeOrDefault (some 20))) ∧
    (infiniteRun (some 20) { page := 3, hasMore := false, isLoading := false }
        [InfiniteEvent.loadMore, InfiniteEvent.fetchStart,
         InfiniteEvent.fetchSuccess 20]).hasMore = false :=
  ⟨(c5_hasmore_compares_configured_default (some 20)).1 infiniteInit 7 rfl,
   (c5_hasmore_compares_configured_default (some 20)).2 _ _ rfl (by decide)⟩

/-- C6: loadMore while a fetch is in flight or hasMore is false leaves the
state unchanged; otherwise it increments page by exactly one; reset returns
to page 1 with hasMore true; and over any event sequence free of reset the
page never decreases. -/
theorem c6_pagination_state_machine (ps : Option Nat) :
    (∀ s : InfiniteState, s.isLoading = true ∨ s.hasMore = false →
        infiniteStep ps s InfiniteEvent.loadMore = s) ∧
    (∀ s : InfiniteState, s.isLoading = false → s.hasMore = true →
        (infiniteStep ps s InfiniteEvent.loadMore).page = s.page + 1) ∧
    (∀ s : InfiniteState, (infiniteStep ps s InfiniteEvent.reset).page = 1 ∧
        (infiniteStep ps s InfiniteEvent.reset).hasMore = true) ∧
    (∀ (s : InfiniteState) (evs : List InfiniteEvent),
        (∀ e ∈ evs, e ≠ InfiniteEvent.reset) →
        s.page ≤ (infiniteRun ps s evs).page) := by
  refine ⟨?_, ?_, fun s => ⟨rfl, rfl⟩, ?_⟩
  · intro s h
    rcases h with h | h <;> simp [infiniteStep, h]
  · intro s h1 h2
    simp [infiniteStep, h1, h2]
  · intro s evs
    induction evs generalizing s with
    | nil => intro _; exact le_refl _
    | cons e tl ih =>
      intro h
      have hstep : s.page ≤ (infiniteStep ps s e).page := by
        cases e with
        | loadMore =>
          simp only [infiniteStep]
          split
          · exact Nat.le_succ _
          · exact le_refl _
        | reset =>
          exact absurd rfl (h InfiniteEvent.reset (List.mem_cons_self _ _))
        | fetchStart => exact le_refl _
        | fetchSuccess len => exact le_refl _
      exact le_trans hstep
        (ih (infiniteStep ps s e) (fun x hx => h x (List.mem_cons_of_mem _ hx)))

/-- Witness for C6 at concrete inputs: loadMore is a no-op when hasMore is
false, increments the page from the initial state, reset restores the
initial flags, and a reset-free run never shrinks the page. -/
theorem c6_pagination_state_machine_witness :
    infiniteStep none { page := 2, hasMore := false, isLoading := false }
        InfiniteEvent.loadMore
      = { page := 2, hasMore := false, isLoading := false } ∧
    (infiniteStep none infiniteInit InfiniteEvent.loadMore).page = infiniteInit.page + 1 ∧
    1 ≤ (infiniteRun none infiniteInit
        [InfiniteEvent.loadMore, InfiniteEvent.fetchStart,
         InfiniteEvent.fetchSuccess 20]).page :=
  ⟨(c6_pagination_state_machine none).1 _ (Or.inr rfl),
   (c6_pagination_state_machine none).2.1 infiniteInit rfl rfl,
   (c6_pagination_state_machine none).2.2.2 infiniteInit _ (by decide)⟩

/-- C2 counterexample: the error is not captured in the failed entity's
entry — two runs whose single entity fails with different classified errors
produce identical results, so the entry cannot contain the error; the catch
stores only `insights: null`. -/
theorem fanout_entry_drops_error :
    segmentInsightsQuery (fun _ => Except.error ErrorClass.http4xx)
        [{ segment_id := 1, size := 5 }]
      = segmentInsightsQuery (fun _ => Except.error ErrorClass.network)
        [{ segment_id := 1, size := 5 }] ∧
    ErrorClass.http4xx ≠ ErrorClass.network := by
  decide

/-- C2 (amended): the fan-out settles only after every per-entity fetch has
settled (its settle time is the maximum of the per-entity settle times,
whatever the outcomes), returns one entry per input entity in input order,
and a failed entity is captured as `{ ...segment, insights: null }` — the
error itself is discarded after logging — while each entry depends only on
its own entity's outcome, so one entity's failure does not abort or affect
the siblings. -/
theorem c2_fanout_settles_ordered_tolerant :
    (∀ (fetch : Nat → Except ErrorClass Nat) (segs : List Segment),
        (segmentInsightsQuery fetch segs).length = segs.length) ∧
    (∀ (fetch : Nat → Except ErrorClass Nat) (segs : List Segment) (i : Nat),
        (segmentInsightsQuery fetch segs)[i]?
          = (segs[i]?).map (fetchSegmentInsights fetch)) ∧
    (∀ (fetch : Nat → Except ErrorClass Nat) (seg : Segment) (e : ErrorClass),
        fetch seg.segment_id = Except.error e →
        fetchSegmentInsights fetch seg = { segment := seg, insights := none }) ∧
    (∀ (f g : Nat → Except ErrorClass Nat) (seg : Segment),
        f seg.segment_id = g seg.segment_id →
        fetchSegmentInsights f seg = fetchSegmentInsights g seg) ∧
    (∀ (settleTime : Nat → Nat) (segs : List Segment) (seg : Segment),
        seg ∈ segs →
        settleTime seg.segment_id ≤ segmentInsightsResolveTime settleTime segs) := by
  refine ⟨?_, ?_, ?_, ?_, ?_⟩
  · intro fetch segs
    cases segs with
    | nil => simp [segmentInsightsQuery]
    | cons a tl => simp [segmentInsightsQuery]
  · intro fetch segs i
    cases segs with
    | nil => simp [segmentInsightsQuery]
    | cons a tl =>
      show (List.map (fetchSegmentInsights fetch) (a :: tl))[i]? = _
      rw [List.getElem?_map]
  · intro fetch seg e h
    simp [fetchSegmentInsights, h]
  · intro f g seg h
    simp [fetchSegmentInsights, h]
  · intro settleTime segs seg hmem
    induction segs with
    | nil => cases hmem
    | cons a tl ih =>
      rcases List.mem_cons.mp hmem with rfl | h2
      · exact le_max_left _ _
      · exact le_trans (ih h2) (le_max_right _ _)

/-- Witness for C2 at the spec's scenario: entities A, B, C where only B's
fetch fails — B's entry carries null insights, A's entry is unaffected by
B's outcome, and the aggregate settles no earlier than B's fetch. -/
theorem c2_fanout_settles_ordered_tolerant_witness :
    fetchSegmentInsights
        (fun id => if id = 1 then Except.error ErrorClass.http5xx else Except.ok id)
        { segment_id := 1, size := 10 }
      = { segment := { segment_id := 1, size := 10 }, insights := none } ∧
    fetchSegmentInsights
        (fun id => if id = 1 then Except.error ErrorClass.http5xx else Except.ok id)
        { segment_id := 0, size := 4 }
      = fetchSegmentInsights (fun id => Except.ok id) { segment_id := 0, size := 4 } ∧
    (300 : Nat) ≤ segmentInsightsResolveTime (fun _ => 300)
        [{ segment_id := 0, size := 4 }, { segment_id := 1, size := 10 },
         { segment_id := 2, size := 6 }] :=
  ⟨c2_fanout_settles_ordered_tolerant.2.2.1 _ _ ErrorClass.http5xx rfl,
   c2_fanout_settles_ordered_tolerant.2.2.2.1 _ _ _ rfl,
   c2_fanout_settles_ordered_tolerant.2.2.2.2 (fun _ => 300)
     [{ segment_id := 0, size := 4 }, { segment_id := 1, size := 10 },
      { segment_id := 2, size := 6 }] { segment_id := 1, size := 10 } (by decide)⟩

/-- Helper: along a strictly time-ordered list of raw changes, every commit
arises from a change at some time `t`, fires at `t + delay` with that
change's key, and no raw change falls strictly between `t` and
`t + delay`. -/
theorem debounceCommits_quiet (delay : Nat) :
    ∀ evs : List (Nat × Nat),
      List.Pairwise (fun a b : Nat × Nat => a.1 < b.1) evs →
      ∀ p ∈ debounceCommits delay evs,
        ∃ t k, (t, k) ∈ evs ∧ p = (t + delay, k) ∧
          ∀ q ∈ evs, q.1 ≤ t ∨ t + delay ≤ q.1
  | [], _, p, hp => by simp [debounceCommits] at hp
  | [(t, k)], _, p, hp => by
    simp only [debounceCommits, List.mem_singleton] at hp
    subst hp
    refine ⟨t, k, List.mem_singleton_self _, rfl, ?_⟩
    intro q hq
    rw [List.mem_singleton] at hq
    subst hq
    exact Or.inl (le_refl t)
  | (t, k) :: (t2, k2) :: rest, hs, p, hp => by
    rw [List.pairwise_cons] at hs
    by_cases hlt : t2 < t + delay
    · simp only [debounceCommits, if_pos hlt] at hp
      obtain ⟨t3, k3, hmem, hpe, hquiet⟩ :=
        debounceCommits_quiet delay ((t2, k2) :: rest) hs.2 p hp
      refine ⟨t3, k3, List.mem_cons_of_mem _ hmem, hpe, ?_⟩
      intro q hq
      rcases List.mem_cons.mp hq with rfl | hq2
      · exact Or.inl (le_of_lt (hs.1 (t3, k3) hmem))
      · exact hquiet q hq2
    · simp only [debounceCommits, if_neg hlt] at hp
      rcases List.mem_cons.mp hp with rfl | hp2
      · refine ⟨t, k, List.mem_cons_self _ _, rfl, ?_⟩
        intro q hq
        rcases List.mem_cons.mp hq with rfl | hq2
        · exact Or.inl (le_refl t)
        · rcases List.mem_cons.mp hq2 with rfl | hq3
          · exact Or.inr (not_lt.mp hlt)
          · have h1 : t2 < q.1 := (List.pairwise_cons.mp hs.2).1 q hq3
            have h2 : t + delay ≤ t2 := not_lt.mp hlt
            exact Or.inr (le_trans h2 (le_of_lt h1))
      · obtain ⟨t3, k3, hmem, hpe, hquiet⟩ :=
          debounceCommits_quiet delay ((t2, k2) :: rest) hs.2 p hp2
        refine ⟨t3, k3, List.mem_cons_of_mem _ hmem, hpe, ?_⟩
        intro q hq
        rcases List.mem_cons.mp hq with rfl | hq2
        · exact Or.inl (le_of_lt (hs.1 (t3, k3) hmem))
        · exact hquiet q hq2

/-- C7: for a strictly time-ordered sequence of raw key changes, every
committed change fires at `t + delay` for some raw change (t, k), carries
that change's key, and no raw change falls strictly inside the window
before `t + delay` — the committed key changes only after delay
milliseconds elapse with no new pending key; and in the spec's scenario of
five key changes each arriving within delay/2 of the previous, exactly one
change is committed, carrying the last key. -/
theorem c7_debounce_commits_after_quiet_window (delay : Nat)
    (evs : List (Nat × Nat))
    (hs : List.Pairwise (fun a b : Nat × Nat => a.1 < b.1) evs) :
    (∀ p ∈ debounceCommits delay evs,
        ∃ t k, (t, k) ∈ evs ∧ p = (t + delay, k) ∧
          ∀ q ∈ evs, q.1 ≤ t ∨ t + delay ≤ q.1) ∧
    debounceCommits 500 [(0, 10), (200, 11), (400, 12), (600, 13), (800, 14)]
      = [(1300, 14)] :=
  ⟨debounceCommits_quiet delay evs hs, by decide⟩

/-- Witness for C7 at the concrete five-change scenario with delay 500 and
gaps of 200ms. -/
theorem c7_debounce_commits_after_quiet_window_witness :
    debounceCommits 500 [(0, 10), (200, 11), (400, 12), (600, 13), (800, 14)]
      = [(1300, 14)] :=
  (c7_debounce_commits_after_quiet_window 500
      [(0, 10), (200, 11), (400, 12), (600, 13), (800, 14)] (by decide)).2
